import Mathlib

/-!
Verification of `buildutil/linux.py`: the Linux-specific `BuildEnvironment`
extension that assembles a cmake command line and runs it as a subprocess.

Python values of type `str | None` are embedded as `Option String`
(`none` = Python `None`). Python dicts with string keys and `str | None`
values are embedded as association lists looked up front-to-back.
Code of the shared base class `buildutil/common.py` (binary check,
subprocess runner, base defaults and base argument registration) is not
part of the sources; those pieces are modelled from the specification and
marked as such in their doc comments.
-/

namespace Fplutil

/-- Python truthiness of a `str | None` value: `None` and `""` are falsy. -/
def pyTruthy : Option String → Bool
  | none => false
  | some s => !s.isEmpty

/-- Python `a or b` on `str | None` values: yields `a` when `a` is truthy,
otherwise `b`. -/
def pyOr (a b : Option String) : Option String :=
  if pyTruthy a then a else b

/-- A Python dict from string keys to `str | None` values, embedded as an
association list; lookups take the first matching pair. -/
def Dict := List (String × Option String)

/-- Dict lookup: `some v` when the key is present with value `v`
(where `v` itself may be `none`, i.e. Python `None`), `none` when the key
is absent (in Python, indexing would raise `KeyError`). -/
def dictGet (d : Dict) (k : String) : Option (Option String) :=
  (List.find? (fun p => p.1 == k) d).map Prod.snd

/-- Dict update `d[k] = v`: the new binding shadows any older one. -/
def dictSet (d : Dict) (k : String) (v : Option String) : Dict :=
  (k, v) :: d

/-! ## Model of Python `shlex.split`

`run_cmake` tokenizes `cmake_flags` with
`shlex.split(self.cmake_flags, posix=self._posix)`. The standard library
lexer is embedded as a character-at-a-time state machine:

* whitespace (` `, tab, CR, LF) separates tokens;
* `'` and `"` open quoted sections — in POSIX mode anywhere in a token
  with the quote characters stripped, in non-POSIX mode only at the start
  of a token with the quote characters retained;
* in POSIX mode `\` escapes the next character outside quotes, and inside
  double quotes it escapes `"` and `\` only;
* in non-POSIX mode `\` is an ordinary character.

The stdlib raises `ValueError` on an unterminated quote or trailing
escape; the model instead emits the partial token (no claim exercises
that case). -/

/-- The characters `shlex` treats as token separators (` \t\r\n`). -/
def isShlexWhitespace (c : Char) : Bool :=
  c == ' ' || c == '\t' || c == '\r' || c == '\n'

/-- Lexer state: between tokens, inside an unquoted word, inside a quoted
section opened by `q`, or just after a backslash (outside or inside
double quotes). Each token-carrying state holds the characters read so
far. -/
inductive SplitState where
  | between
  | word (tok : List Char)
  | quoted (q : Char) (tok : List Char)
  | escaped (tok : List Char)
  | quotedEscaped (q : Char) (tok : List Char)
deriving DecidableEq, Repr

/-- One step of the `shlex` state machine: consume character `c`, return
the next state and the completed token, if this character ended one. -/
def shlexStep (posix : Bool) (st : SplitState) (c : Char) :
    SplitState × Option String :=
  match st with
  | .between =>
    if isShlexWhitespace c then (.between, none)
    else if c == '\'' || c == '"' then
      if posix then (.quoted c [], none) else (.quoted c [c], none)
    else if posix && c == '\\' then (.escaped [], none)
    else (.word [c], none)
  | .word tok =>
    if isShlexWhitespace c then (.between, some (String.mk tok))
    else if posix && (c == '\'' || c == '"') then (.quoted c tok, none)
    else if posix && c == '\\' then (.escaped tok, none)
    else (.word (tok ++ [c]), none)
  | .quoted q tok =>
    if c == q then
      if posix then (.word tok, none) else (.word (tok ++ [q]), none)
    else if posix && q == '"' && c == '\\' then (.quotedEscaped q tok, none)
    else (.quoted q (tok ++ [c]), none)
  | .escaped tok => (.word (tok ++ [c]), none)
  | .quotedEscaped q tok =>
    if c == '"' || c == '\\' then (.quoted q (tok ++ [c]), none)
    else (.quoted q (tok ++ ['\\', c]), none)

/-- Token pending at end of input, if any (an unterminated quote or
trailing escape emits the partial token; the stdlib would raise). -/
def shlexFinal : SplitState → List String
  | .between => []
  | .word tok => [String.mk tok]
  | .quoted _ tok => [String.mk tok]
  | .escaped tok => [String.mk tok]
  | .quotedEscaped _ tok => [String.mk (tok ++ ['\\'])]

/-- Run the `shlex` state machine over the remaining characters. -/
def shlexRun (posix : Bool) : SplitState → List Char → List String
  | st, [] => shlexFinal st
  | st, c :: rest =>
    match shlexStep posix st c with
    | (st', some tok) => tok :: shlexRun posix st' rest
    | (st', none) => shlexRun posix st' rest

/-- Model of Python `shlex.split(s, posix)`. -/
def shlexSplit (s : String) (posix : Bool) : List String :=
  shlexRun posix .between s.toList

/-! ## Errors and the subprocess model -/

/-- The two error kinds `run_cmake` can raise: `common.ToolPathError` and
`common.SubCommandError`. -/
inductive BuildError where
  | toolPathError
  | subCommandError
deriving DecidableEq, Repr

/-- One spawned subprocess: its argument vector and working directory. -/
structure SpawnCall where
  argv : List String
  cwd : String
deriving DecidableEq, Repr

/-- How the operating system answers a spawn request: the process could
not be launched, or it ran and exited with the given status. -/
inductive SpawnOutcome where
  | launchFailed
  | exited (code : Int)
deriving DecidableEq, Repr

/-- Modelled from the spec: `common.BuildEnvironment._check_binary` is not
in the sources. Per the spec it validates that the configured path
resolves to an existing, executable binary and raises `ToolPathError`
when the path is empty, missing, or not executable, before any process is
spawned. The filesystem is abstracted as the predicate `isExec`. -/
def check_binary (isExec : String → Bool) : Option String →
    Except BuildError Unit
  | none => .error .toolPathError
  | some p =>
    if p.isEmpty then .error .toolPathError
    else if isExec p then .ok () else .error .toolPathError

/-- Modelled from the spec: `common.BuildEnvironment.run_subprocess` is
not in the sources. Per the spec it executes the argument vector as a
subprocess with the given working directory, raises `SubCommandError`
when the subprocess cannot be launched or exits non-zero, and otherwise
returns normally. The operating system is abstracted as `runner`; the
second component records the spawn requests issued (exactly one). -/
def run_subprocess (runner : SpawnCall → SpawnOutcome)
    (argv : List String) (cwd : String) :
    Except BuildError Unit × List SpawnCall :=
  let call : SpawnCall := ⟨argv, cwd⟩
  (match runner call with
   | .launchFailed => .error .subCommandError
   | .exited code => if code == 0 then .ok () else .error .subCommandError,
   [call])

/-! ## The Linux build environment -/

/-- The Linux `BuildEnvironment`. `cmake_path` and `cmake_flags` are the
two fields added by `linux.py`; `project_directory` and `_posix` are
inherited from the base class (their initialization is out of scope). -/
structure BuildEnvironment where
  cmake_path : Option String
  cmake_flags : Option String
  project_directory : String
  _posix : Bool
deriving DecidableEq, Repr

/-- The `arguments` parameter of the constructor: either a plain dict or
a structured object (an `argparse` namespace) whose attribute dict
`vars(arguments)` carries the same bindings. -/
inductive Arguments where
  | dict (d : Dict)
  | namespaceObj (attrs : Dict)

/-- `BuildEnvironment.__init__` from `linux.py`: take `arguments` itself
when it is a dict, else `vars(arguments)`, and read the two keys
`cmake_path` and `cmake_flags` from it. A missing key is a Python
`KeyError`, embedded as `none`. The base initializer sets
`project_directory` and `_posix`; it is out of scope and its results are
passed in directly. -/
def BuildEnvironment.init (pd : String) (posix : Bool)
    (arguments : Arguments) : Option BuildEnvironment :=
  let args := match arguments with
    | .dict d => d
    | .namespaceObj a => a
  match dictGet args "cmake_path" with
  | none => none
  | some p =>
    match dictGet args "cmake_flags" with
    | none => none
    | some f => some ⟨p, f, pd, posix⟩

/-- `BuildEnvironment.build_defaults` from `linux.py`: extend the base
defaults with `cmake_path = os.getenv('CMAKE_PATH') or
find_executable('cmake')` and `cmake_flags = os.getenv('CMAKE_FLAGS')`.
The base defaults (from `common.py`, out of scope) are passed in as
`baseDefaults`; `getenv` abstracts the process environment and
`findExecutable` abstracts `distutils.spawn.find_executable`. -/
def build_defaults (baseDefaults : Dict) (getenv : String → Option String)
    (findExecutable : String → Option String) : Dict :=
  let args := baseDefaults
  let args := dictSet args "cmake_path"
    (pyOr (getenv "CMAKE_PATH") (findExecutable "cmake"))
  let args := dictSet args "cmake_flags" (getenv "CMAKE_FLAGS")
  args

/-- One registered command-line option: `parser.add_argument(short,
long, help=..., dest=..., default=...)`. -/
structure ArgSpec where
  shortFlag : String
  longFlag : String
  help : String
  dest : String
  defaultVal : Option String
deriving DecidableEq, Repr

/-- `BuildEnvironment.add_arguments` from `linux.py`: compute the
defaults, let the base class register its options (`baseArgs`, from
`common.py`, out of scope), then register `-c` / `--cmake_path` and
`-F` / `--cmake_flags` with the computed defaults. The parser is embedded as
the list of options registered so far, in order. -/
def add_arguments (baseArgs : List ArgSpec) (baseDefaults : Dict)
    (getenv : String → Option String)
    (findExecutable : String → Option String)
    (parser : List ArgSpec) : List ArgSpec :=
  let defaults := build_defaults baseDefaults getenv findExecutable
  let parser := parser ++ baseArgs
  let parser := parser ++
    [⟨"-c", "--cmake_path", "Path to CMake binary", "cmake_path",
      (dictGet defaults "cmake_path").getD none⟩]
  let parser := parser ++
    [⟨"-F", "--cmake_flags", "Flags to use to override CMake flags",
      "cmake_flags", (dictGet defaults "cmake_flags").getD none⟩]
  parser

/-- The argument vector `run_cmake` assembles:
`[cmake_path, "-G", gen]`, then the `shlex`-split `cmake_flags` when
truthy, then `project_directory`. -/
def cmakeArgs (env : BuildEnvironment) (gen : String) : List String :=
  let args := [env.cmake_path.getD "", "-G", gen]
  let args := if pyTruthy env.cmake_flags then
      args ++ shlexSplit (env.cmake_flags.getD "") env._posix
    else args
  args ++ [env.project_directory]

/-- `BuildEnvironment.run_cmake` from `linux.py`: check the cmake binary,
assemble the argument vector, and run it as a subprocess with the working
directory set to the project directory. The result carries the outcome,
the list of spawn requests issued, and the environment as it stands after
the call (the source reassigns no field). -/
def run_cmake (isExec : String → Bool) (runner : SpawnCall → SpawnOutcome)
    (env : BuildEnvironment) (gen : String := "Unix Makefiles") :
    Except BuildError Unit × List SpawnCall × BuildEnvironment :=
  match check_binary isExec env.cmake_path with
  | .error e => (.error e, [], env)
  | .ok () =>
    let (r, calls) :=
      run_subprocess runner (cmakeArgs env gen) env.project_directory
    (r, calls, env)

/-! ## Concrete fixtures used by the witness theorems -/

/-- A filesystem on which every path is an executable binary. -/
def execAll : String → Bool := fun _ => true

/-- An operating system on which every spawn succeeds with exit code 0. -/
def runnerOk : SpawnCall → SpawnOutcome := fun _ => .exited 0

/-- An operating system on which every spawn exits with code 1. -/
def runnerFail1 : SpawnCall → SpawnOutcome := fun _ => .exited 1

/-- An environment with cmake flags set. -/
def envSample : BuildEnvironment :=
  ⟨some "/usr/bin/cmake", some "-DFOO=1 -DBAR=2", "/proj", true⟩

/-- An environment with no cmake flags. -/
def envNoFlags : BuildEnvironment :=
  ⟨some "/usr/bin/cmake", none, "/proj", true⟩

/-- An environment with no cmake path. -/
def envNoPath : BuildEnvironment :=
  ⟨none, some "-DFOO=1 -DBAR=2", "/proj", true⟩

/-- An environment whose flag string uses POSIX single quotes. -/
def envQuoted : BuildEnvironment :=
  ⟨some "/opt/cmake", some "-DA='x y' -DB=2", "/work", true⟩

/-- A well-formed arguments dict. -/
def argsSample : Dict :=
  [("cmake_path", some "/usr/bin/cmake"), ("cmake_flags", none)]

/-- An arguments dict lacking the `cmake_flags` key. -/
def argsMissingFlags : Dict := [("cmake_path", some "/x")]

end Fplutil

namespace Fplutil

/-! ## Claims -/

/-- C1: a successful `run_cmake gen` issues exactly one spawn request, with
argument vector `[cmake_path, "-G", gen]`, then the tokens split from
`cmake_flags` when it is set and non-empty, then `project_directory`, and
with working directory `project_directory`; moreover
`"-DFOO=1 -DBAR=2"` splits into `["-DFOO=1", "-DBAR=2"]` in either
splitting mode. -/
theorem run_cmake_argv_spec :
    (∀ (isExec : String → Bool) (runner : SpawnCall → SpawnOutcome)
       (env : BuildEnvironment) (gen : String),
       (run_cmake isExec runner env gen).1 = .ok () →
       (run_cmake isExec runner env gen).2.1 =
         [⟨[env.cmake_path.getD "", "-G", gen] ++
            (if pyTruthy env.cmake_flags then
              shlexSplit (env.cmake_flags.getD "") env._posix
            else []) ++
            [env.project_directory],
           env.project_directory⟩]) ∧
    (∀ posix : Bool,
       shlexSplit "-DFOO=1 -DBAR=2" posix = ["-DFOO=1", "-DBAR=2"]) := by
  constructor
  · intro isExec runner env gen h
    cases hc : check_binary isExec env.cmake_path with
    | error e => simp [run_cmake, hc] at h
    | ok u =>
      cases u
      simp only [run_cmake, hc, run_subprocess, cmakeArgs]
      split <;> simp
  · intro posix
    cases posix <;> rfl

/-- C1 witness: with `cmake_flags = "-DFOO=1 -DBAR=2"`, a successful
`run_cmake "Ninja"` spawns exactly
`cmake -G Ninja -DFOO=1 -DBAR=2 /proj` in `/proj`. -/
theorem run_cmake_argv_spec_witness :
    (run_cmake execAll runnerOk envSample "Ninja").2.1 =
      [⟨["/usr/bin/cmake", "-G", "Ninja", "-DFOO=1", "-DBAR=2", "/proj"],
        "/proj"⟩] := by
  have h := run_cmake_argv_spec.1 execAll runnerOk envSample "Ninja" rfl
  rw [h]; rfl

/-- C2: when `cmake_path` is unset or empty, `run_cmake` fails with
`ToolPathError` and issues no spawn request at all. -/
theorem run_cmake_empty_path (isExec : String → Bool)
    (runner : SpawnCall → SpawnOutcome) (env : BuildEnvironment)
    (gen : String)
    (h : env.cmake_path = none ∨ env.cmake_path = some "") :
    (run_cmake isExec runner env gen).1 = .error .toolPathError ∧
    (run_cmake isExec runner env gen).2.1 = [] := by
  rcases h with h | h <;>
    simp [run_cmake, check_binary, h,
      show ("" : String).isEmpty = true from rfl]

/-- C2 witness: `run_cmake` on an environment with `cmake_path = None`
raises `ToolPathError` and spawns nothing. -/
theorem run_cmake_empty_path_witness :
    (run_cmake execAll runnerOk envNoPath "Ninja").1 =
      .error .toolPathError ∧
    (run_cmake execAll runnerOk envNoPath "Ninja").2.1 = [] :=
  run_cmake_empty_path execAll runnerOk envNoPath "Ninja" (Or.inl rfl)

/-- C3: once the binary check passes, `run_cmake` fails with
`SubCommandError` exactly when the spawned subprocess fails to launch or
exits non-zero, and returns `.ok ()` (no output value) when it exits 0. -/
theorem run_cmake_subprocess_result (isExec : String → Bool)
    (runner : SpawnCall → SpawnOutcome) (env : BuildEnvironment)
    (gen : String)
    (hc : check_binary isExec env.cmake_path = .ok ()) :
    ((run_cmake isExec runner env gen).1 = .error .subCommandError ↔
      (runner ⟨cmakeArgs env gen, env.project_directory⟩ = .launchFailed ∨
       ∃ c : Int,
         runner ⟨cmakeArgs env gen, env.project_directory⟩ = .exited c ∧
         c ≠ 0)) ∧
    (runner ⟨cmakeArgs env gen, env.project_directory⟩ = .exited 0 →
      (run_cmake isExec runner env gen).1 = .ok ()) := by
  constructor
  · cases hr : runner ⟨cmakeArgs env gen, env.project_directory⟩ with
    | launchFailed => simp [run_cmake, hc, run_subprocess, hr]
    | exited c =>
      by_cases h0 : c = 0
      · subst h0; simp [run_cmake, hc, run_subprocess, hr]
      · simp [run_cmake, hc, run_subprocess, hr, h0]
  · intro hr
    simp [run_cmake, hc, run_subprocess, hr]

/-- C3 witness: with a subprocess that exits 1, `run_cmake` raises
`SubCommandError`. -/
theorem run_cmake_subprocess_result_witness :
    (run_cmake execAll runnerFail1 envNoFlags "Ninja").1 =
      .error .subCommandError :=
  (run_cmake_subprocess_result execAll runnerFail1 envNoFlags "Ninja"
    rfl).1.mpr (Or.inr ⟨1, rfl, by decide⟩)

/-- C4: in the dict `build_defaults` returns, `cmake_path` maps to the
value of `CMAKE_PATH` exactly as given when that variable is set and
non-empty (no existence check consulted), otherwise to the search-path
result for `cmake`, which is `none` (absent) when no such executable is
found; and `cmake_flags` maps to the value of `CMAKE_FLAGS`, `none`
(absent) when unset. -/
theorem build_defaults_resolution (baseDefaults : Dict)
    (getenv findExecutable : String → Option String) :
    dictGet (build_defaults baseDefaults getenv findExecutable)
        "cmake_path" =
      some (match getenv "CMAKE_PATH" with
        | some v => if v.isEmpty then findExecutable "cmake" else some v
        | none => findExecutable "cmake") ∧
    dictGet (build_defaults baseDefaults getenv findExecutable)
        "cmake_flags" =
      some (getenv "CMAKE_FLAGS") := by
  constructor
  · cases hg : getenv "CMAKE_PATH" with
    | none => simp [build_defaults, dictSet, dictGet, pyOr, pyTruthy, hg]
    | some v =>
      by_cases he : v.isEmpty <;>
        simp [build_defaults, dictSet, dictGet, pyOr, pyTruthy, hg, he]
  · simp [build_defaults, dictSet, dictGet]

/-- C5: when `cmake_flags` is unset or empty and the binary check passes,
the spawned argument vector is exactly the four elements
`[cmake_path, "-G", gen, project_directory]`. -/
theorem run_cmake_no_flags (isExec : String → Bool)
    (runner : SpawnCall → SpawnOutcome) (env : BuildEnvironment)
    (gen : String)
    (hf : env.cmake_flags = none ∨ env.cmake_flags = some "")
    (hc : check_binary isExec env.cmake_path = .ok ()) :
    (run_cmake isExec runner env gen).2.1 =
      [⟨[env.cmake_path.getD "", "-G", gen, env.project_directory],
        env.project_directory⟩] := by
  rcases hf with hf | hf <;>
    simp [run_cmake, hc, run_subprocess, cmakeArgs, pyTruthy, hf,
      show ("" : String).isEmpty = true from rfl]

/-- C5 witness: with no flags, `run_cmake "Ninja"` spawns exactly
`cmake -G Ninja /proj`. -/
theorem run_cmake_no_flags_witness :
    (run_cmake execAll runnerOk envNoFlags "Ninja").2.1 =
      [⟨["/usr/bin/cmake", "-G", "Ninja", "/proj"], "/proj"⟩] := by
  have h := run_cmake_no_flags execAll runnerOk envNoFlags "Ninja"
    (Or.inl rfl) rfl
  rw [h]; rfl

/-- C6: when `cmake_flags` is set and non-empty (truthy) and the binary
check passes, the tokens appended after the generator argument are
exactly `shlexSplit cmake_flags _posix` — the shell-word splitting whose
quoting rules are selected by the base environment's `_posix` flag — and
the two rule sets genuinely differ (POSIX splitting strips quotes,
non-POSIX splitting retains them). -/
theorem run_cmake_flag_tokenization (isExec : String → Bool)
    (runner : SpawnCall → SpawnOutcome) (env : BuildEnvironment)
    (gen : String)
    (hf : pyTruthy env.cmake_flags = true)
    (hc : check_binary isExec env.cmake_path = .ok ()) :
    ((run_cmake isExec runner env gen).2.1 =
      [⟨[env.cmake_path.getD "", "-G", gen] ++
         shlexSplit (env.cmake_flags.getD "") env._posix ++
         [env.project_directory],
        env.project_directory⟩]) ∧
    shlexSplit "-DA='x y'" true ≠ shlexSplit "-DA='x y'" false := by
  constructor
  · simp [run_cmake, hc, run_subprocess, cmakeArgs, hf]
  · decide

/-- C6 witness: with POSIX splitting, `-DA='x y' -DB=2` becomes the two
tokens `-DA=x y` and `-DB=2` placed between the generator and the
project directory. -/
theorem run_cmake_flag_tokenization_witness :
    (run_cmake execAll runnerOk envQuoted).2.1 =
      [⟨["/opt/cmake", "-G", "Unix Makefiles", "-DA=x y", "-DB=2",
         "/work"], "/work"⟩] := by
  have h := (run_cmake_flag_tokenization execAll runnerOk envQuoted
    "Unix Makefiles" rfl rfl).1
  rw [h]; rfl

/-- C7: the constructor accepts a dict and a structured object carrying
the same bindings transparently: both initialize `cmake_path` and
`cmake_flags` to the bound values, yielding identical environments. -/
theorem init_accepts_both_shapes (pd : String) (posix : Bool) (d : Dict)
    (p f : Option String)
    (hp : dictGet d "cmake_path" = some p)
    (hf : dictGet d "cmake_flags" = some f) :
    BuildEnvironment.init pd posix (.dict d) = some ⟨p, f, pd, posix⟩ ∧
    BuildEnvironment.init pd posix (.namespaceObj d) =
      some ⟨p, f, pd, posix⟩ := by
  constructor <;> simp [BuildEnvironment.init, hp, hf]

/-- C7 witness: a dict and a structured object with the same bindings
construct the same environment. -/
theorem init_accepts_both_shapes_witness :
    BuildEnvironment.init "/proj" true (.dict argsSample) =
      some ⟨some "/usr/bin/cmake", none, "/proj", true⟩ ∧
    BuildEnvironment.init "/proj" true (.namespaceObj argsSample) =
      some ⟨some "/usr/bin/cmake", none, "/proj", true⟩ :=
  init_accepts_both_shapes "/proj" true argsSample
    (some "/usr/bin/cmake") none rfl rfl

/-- C8: `add_arguments` extends the parser with the base class's options
followed by exactly two module-specific options: `-c` / `--cmake_path`
bound to key `cmake_path` and `-F` / `--cmake_flags` bound to key
`cmake_flags`, each pre-populated with the default `build_defaults`
computes for that key. -/
theorem add_arguments_registers_two (baseArgs : List ArgSpec)
    (baseDefaults : Dict) (getenv findExecutable : String → Option String)
    (parser : List ArgSpec) :
    add_arguments baseArgs baseDefaults getenv findExecutable parser =
      parser ++ baseArgs ++
      [⟨"-c", "--cmake_path", "Path to CMake binary", "cmake_path",
        pyOr (getenv "CMAKE_PATH") (findExecutable "cmake")⟩,
       ⟨"-F", "--cmake_flags", "Flags to use to override CMake flags",
        "cmake_flags", getenv "CMAKE_FLAGS"⟩] := by
  simp [add_arguments, build_defaults, dictSet, dictGet]

/-- C9: `run_cmake` never reassigns `cmake_path` or `cmake_flags`:
whether it returns or raises, the environment after the call holds the
same two field values it held before. -/
theorem run_cmake_preserves_fields (isExec : String → Bool)
    (runner : SpawnCall → SpawnOutcome) (env : BuildEnvironment)
    (gen : String) :
    ((run_cmake isExec runner env gen).2.2).cmake_path = env.cmake_path ∧
    ((run_cmake isExec runner env gen).2.2).cmake_flags =
      env.cmake_flags := by
  cases hc : check_binary isExec env.cmake_path <;>
    simp [run_cmake, hc, run_subprocess]

/-- C10: the constructor performs no defaulting: when the dict form of
the arguments lacks `cmake_path` or `cmake_flags`, construction fails
with a lookup error (`KeyError`, embedded as `none`) instead of building
an environment with a substituted value. -/
theorem init_missing_key_fails (pd : String) (posix : Bool) (d : Dict)
    (h : dictGet d "cmake_path" = none ∨ dictGet d "cmake_flags" = none) :
    BuildEnvironment.init pd posix (.dict d) = none ∧
    BuildEnvironment.init pd posix (.namespaceObj d) = none := by
  rcases h with h | h
  · constructor <;> simp [BuildEnvironment.init, h]
  · constructor <;>
      (cases hp : dictGet d "cmake_path" <;>
        simp [BuildEnvironment.init, hp, h])

/-- C10 witness: an arguments dict lacking `cmake_flags` fails to
construct, in both configuration shapes. -/
theorem init_missing_key_fails_witness :
    BuildEnvironment.init "/proj" true (.dict argsMissingFlags) = none ∧
    BuildEnvironment.init "/proj" true (.namespaceObj argsMissingFlags) =
      none :=
  init_missing_key_fails "/proj" true argsMissingFlags (Or.inr rfl)

end Fplutil
